import Mathlib

/-!
Shallow embedding of the `database` package of the oapi-sqlc repository:
the transaction coordinator (`runTransactionWithOpts`, `WithTX`, `WithReadTX`),
and the connection manager (`Disconnect`, `healthCheckPool`,
`connectAndMigratePool`, the reconnect loop body of `runReconnect`).

External effects (pgx pool/transaction calls, the goose migration, the caller
supplied work unit) are supplied by environment records; each embedded
function returns, besides its Go return value, the ordered trace of the
observable calls it made, so that call counts and orderings can be stated.
The pgx transaction close-once discipline (Commit/Rollback on an already
closed transaction is a no-op returning ErrTxClosed) is embedded as a small
state machine `Tx`.
-/

namespace DB

/-- Go error values: a base error or an error wrapped with a message, as
produced by fmt.Errorf with the w verb. -/
inductive GoErr where
  | base (msg : String) : GoErr
  | wrap (msg : String) (inner : GoErr) : GoErr
deriving DecidableEq

/-- The pgx error returned when Commit or Rollback is called on an already
closed transaction. -/
def errTxClosed : GoErr := .base "tx is closed"

/-- The two pgx transaction access modes used by this package. -/
inductive AccessMode where
  | readOnly
  | readWrite
deriving DecidableEq

/-- The slice of pgx.TxOptions this package sets. -/
structure TxOptions where
  accessMode : AccessMode
deriving DecidableEq

/-- State of a pgx transaction object: pgx marks the transaction closed after
the first Commit or Rollback, and later Commit/Rollback calls are no-ops. -/
structure Tx where
  closed : Bool
deriving DecidableEq

/-- Result of a Commit/Rollback call on a `Tx`: the returned error, the
updated transaction object, and whether the operation was actually sent to
the backend (false when the transaction was already closed). -/
structure TxOpResult where
  err : Option GoErr
  tx : Tx
  performed : Bool
deriving DecidableEq

/-- pgx dbTx.Commit: on a closed transaction it returns ErrTxClosed without
contacting the backend; otherwise it sends COMMIT (whose backend outcome is
`backend`) and marks the transaction closed either way. -/
def Tx.commit (tx : Tx) (backend : Option GoErr) : TxOpResult :=
  if tx.closed then ⟨some errTxClosed, tx, false⟩
  else ⟨backend, ⟨true⟩, true⟩

/-- pgx dbTx.Rollback: a no-op returning ErrTxClosed on a closed transaction;
otherwise it sends ROLLBACK and marks the transaction closed. -/
def Tx.rollback (tx : Tx) : TxOpResult :=
  if tx.closed then ⟨some errTxClosed, tx, false⟩
  else ⟨none, ⟨true⟩, true⟩

/-- Observable calls made by one transaction-coordinator invocation.
`ctx` records which Go context the call was issued with; the `performed`
flag on commit/rollback records whether the statement was actually sent
to the backend (per `Tx.commit`/`Tx.rollback`). -/
inductive Ev (Ctx Q : Type) where
  | beginTx (ctx : Ctx) (opts : TxOptions)
  | execFn (q : Q)
  | commitCall (ctx : Ctx) (performed : Bool)
  | rollbackCall (ctx : Ctx) (performed : Bool)
deriving DecidableEq

/-- The event is a pool.BeginTx call. -/
def Ev.isBegin {Ctx Q : Type} : Ev Ctx Q → Bool
  | .beginTx _ _ => true
  | _ => false

/-- The event is a work-unit invocation. -/
def Ev.isExec {Ctx Q : Type} : Ev Ctx Q → Bool
  | .execFn _ => true
  | _ => false

/-- The event is a Commit call that actually reached the backend. -/
def Ev.isCommitAttempt {Ctx Q : Type} : Ev Ctx Q → Bool
  | .commitCall _ performed => performed
  | _ => false

/-- The event is any Commit call, performed or not. -/
def Ev.isCommitCall {Ctx Q : Type} : Ev Ctx Q → Bool
  | .commitCall _ _ => true
  | _ => false

/-- The event is a Rollback call that actually rolled the transaction back. -/
def Ev.isEffRollback {Ctx Q : Type} : Ev Ctx Q → Bool
  | .rollbackCall _ performed => performed
  | _ => false

/-- The event is any Rollback call, performed or not. -/
def Ev.isRollbackCall {Ctx Q : Type} : Ev Ctx Q → Bool
  | .rollbackCall _ _ => true
  | _ => false

/-- No backend-performed rollback occurs anywhere after a backend-performed
commit in the trace. -/
def noEffRollbackAfterCommit {Ctx Q : Type} : List (Ev Ctx Q) → Bool
  | [] => true
  | e :: rest =>
    ((!e.isCommitAttempt) || rest.all (fun x => !x.isEffRollback)) &&
      noEffRollbackAfterCommit rest

/-- Environment of one transaction-coordinator call: the outcomes of the pgx
pool/transaction operations and the queriers the generated sqlc code builds.
`txQuerier` is what queries.WithTx tx yields for the freshly begun
transaction; `poolQuerier` is New applied to the pool. -/
structure TxEnv (Ctx Q : Type) where
  beginTx : Ctx → TxOptions → Except GoErr Unit
  commitErr : Ctx → Option GoErr
  poolQuerier : Q
  txQuerier : Q

/-- Embedding of dbo.runTransactionWithOpts: with an existing querier the
work unit is called on it directly; otherwise BeginTx, work unit, Commit,
with a rollback deferred right after a successful BeginTx that runs on every
exit path. Returns the Go error result and the trace of calls. -/
def runTransactionWithOpts {Ctx Q : Type} (env : TxEnv Ctx Q) (ctx : Ctx)
    (fn : Q → Option GoErr) (opts : TxOptions) (existingQ : List Q) :
    Option GoErr × List (Ev Ctx Q) :=
  match existingQ with
  | q :: _ => (fn q, [.execFn q])
  | [] =>
    match env.beginTx ctx opts with
    | .error e =>
      (some (.wrap "failed to begin transaction" e), [.beginTx ctx opts])
    | .ok _ =>
      let tx : Tx := ⟨false⟩
      match fn env.txQuerier with
      | some e =>
        let rb := tx.rollback
        (some (.wrap "failed to execute function" e),
          [.beginTx ctx opts, .execFn env.txQuerier,
            .rollbackCall ctx rb.performed])
      | none =>
        let cm := tx.commit (env.commitErr ctx)
        let rb := cm.tx.rollback
        match cm.err with
        | some e =>
          (some (.wrap "failed to commit transaction" e),
            [.beginTx ctx opts, .execFn env.txQuerier,
              .commitCall ctx cm.performed, .rollbackCall ctx rb.performed])
        | none =>
          (none,
            [.beginTx ctx opts, .execFn env.txQuerier,
              .commitCall ctx cm.performed, .rollbackCall ctx rb.performed])

/-- Embedding of dbo.WithReadTX: runTransactionWithOpts with read-only
access mode. -/
def WithReadTX {Ctx Q : Type} (env : TxEnv Ctx Q) (ctx : Ctx)
    (fn : Q → Option GoErr) (existingQ : List Q) :
    Option GoErr × List (Ev Ctx Q) :=
  runTransactionWithOpts env ctx fn ⟨.readOnly⟩ existingQ

/-- Embedding of dbo.WithTX: runTransactionWithOpts with read-write access
mode. -/
def WithTX {Ctx Q : Type} (env : TxEnv Ctx Q) (ctx : Ctx)
    (fn : Q → Option GoErr) (existingQ : List Q) :
    Option GoErr × List (Ev Ctx Q) :=
  runTransactionWithOpts env ctx fn ⟨.readWrite⟩ existingQ

/-- Claim C1: when an existing Querier is supplied, WithTX and WithReadTX
invoke the work unit directly on it, return its result unchanged, and never
call BeginTx. -/
theorem C1_existing_querier_direct {Ctx Q : Type} (env : TxEnv Ctx Q)
    (ctx : Ctx) (fn : Q → Option GoErr) (q : Q) (rest : List Q) :
    WithTX env ctx fn (q :: rest) = (fn q, [Ev.execFn q]) ∧
    WithReadTX env ctx fn (q :: rest) = (fn q, [Ev.execFn q]) ∧
    (WithTX env ctx fn (q :: rest)).2.countP Ev.isBegin = 0 ∧
    (WithReadTX env ctx fn (q :: rest)).2.countP Ev.isBegin = 0 := by
  refine ⟨rfl, rfl, ?_, ?_⟩ <;>
    simp [WithTX, WithReadTX, runTransactionWithOpts, Ev.isBegin]

/-- A pgxpool pool handle: an identity for the underlying pool object and
whether Close has been called on it. A freshly created pool is open. -/
structure Pool where
  id : Nat
  closed : Bool
deriving DecidableEq

/-- The fields of the dbo struct: the connection url, the current pool
handle, and the atomic teardown flag. -/
structure DboState where
  url : String
  pool : Pool
  isTeardown : Bool
deriving DecidableEq

/-- Environment of one connectAndMigratePool call: the outcome of
pgxpool.ParseConfig on a given url, of pgxpool.NewWithConfig (on success the
id of the freshly created, open pool), and of the goose migration run. -/
structure ConnectEnv where
  parseErr : String → Option GoErr
  createResult : Except GoErr Nat
  migrateErr : Option GoErr

/-- Embedding of dbo.connectAndMigratePool: parse the config, create a pool,
migrate; only when all three succeed is the pool field replaced with the new
pool, otherwise the state is unchanged and a phase-wrapped error returned. -/
def connectAndMigratePool (env : ConnectEnv) (st : DboState) :
    Option GoErr × DboState :=
  match env.parseErr st.url with
  | some e => (some (.wrap "failed to parse config" e), st)
  | none =>
    match env.createResult with
    | .error e => (some (.wrap "failed to create connection pool" e), st)
    | .ok n =>
      match env.migrateErr with
      | some e => (some (.wrap "failed to run migrations" e), st)
      | none => (none, { st with pool := ⟨n, false⟩ })

/-- Observable calls of the connection-manager health loop: a Ping (with its
outcome) and a reconnect attempt (with its outcome). -/
inductive MEv where
  | ping (ok : Bool)
  | reconnectAttempt (ok : Bool)
deriving DecidableEq

/-- The event is a Ping call. -/
def MEv.isPing : MEv → Bool
  | .ping _ => true
  | _ => false

/-- The event is a reconnect attempt. -/
def MEv.isReconnect : MEv → Bool
  | .reconnectAttempt _ => true
  | _ => false

/-- Environment of one health-check iteration: the outcome of pool.Ping and
the environment of the reconnect attempt made if the ping fails. -/
structure HealthEnv where
  pingErr : Option GoErr
  connectEnv : ConnectEnv

/-- Embedding of dbo.healthCheckPool: ping the pool; on ping failure call
connectAndMigratePool, whose error is only logged. Returns the updated
state and the trace of manager events. -/
def healthCheckPool (env : HealthEnv) (st : DboState) :
    DboState × List MEv :=
  match env.pingErr with
  | none => (st, [.ping true])
  | some _ =>
    let r := connectAndMigratePool env.connectEnv st
    (r.2, [.ping false, .reconnectAttempt r.1.isNone])

/-- Embedding of n iterations of the loop body spawned by dbo.runReconnect:
each iteration first checks the teardown flag and returns if it is set,
otherwise runs healthCheckPool and sleeps. `envs i` supplies the
environment of the i-th remaining iteration. -/
def runReconnectLoop (envs : Nat → HealthEnv) :
    Nat → DboState → DboState × List MEv
  | 0, st => (st, [])
  | n + 1, st =>
    if st.isTeardown then (st, [])
    else
      let p := healthCheckPool (envs 0) st
      let r := runReconnectLoop (fun i => envs (i + 1)) n p.1
      (r.1, p.2 ++ r.2)

/-- Embedding of dbo.Disconnect: set the teardown flag unless the first
variadic argument is true, then close the pool. -/
def Disconnect (st : DboState) (noTeardown : List Bool) : DboState :=
  let st1 :=
    match noTeardown with
    | [] => { st with isTeardown := true }
    | b :: _ => if b then st else { st with isTeardown := true }
  { st1 with pool := { st1.pool with closed := true } }

/-- connectAndMigratePool never touches the teardown flag. -/
theorem connectAndMigratePool_isTeardown (env : ConnectEnv)
    (st : DboState) : (connectAndMigratePool env st).2.isTeardown
      = st.isTeardown := by
  cases hp : env.parseErr st.url <;>
    cases hc : env.createResult <;>
      cases hm : env.migrateErr <;>
        simp [connectAndMigratePool, hp, hc, hm]

/-- healthCheckPool never touches the teardown flag. -/
theorem healthCheckPool_isTeardown (env : HealthEnv) (st : DboState) :
    (healthCheckPool env st).1.isTeardown = st.isTeardown := by
  cases hp : env.pingErr <;>
    simp [healthCheckPool, hp, connectAndMigratePool_isTeardown]

/-- Each health-check iteration performs exactly one ping. -/
theorem healthCheckPool_ping_count (env : HealthEnv) (st : DboState) :
    (healthCheckPool env st).2.countP MEv.isPing = 1 := by
  cases hp : env.pingErr <;>
    simp [healthCheckPool, hp, MEv.isPing]

/-- While the teardown flag is unset the loop never exits: n iterations
perform exactly n pings. -/
theorem runReconnectLoop_ping_count (envs : Nat → HealthEnv) (n : Nat)
    (st : DboState) (h : st.isTeardown = false) :
    (runReconnectLoop envs n st).2.countP MEv.isPing = n := by
  induction n generalizing envs st with
  | zero => simp [runReconnectLoop]
  | succ n ih =>
    simp only [runReconnectLoop, h, if_neg Bool.false_ne_true,
      List.countP_append]
    rw [healthCheckPool_ping_count,
      ih _ _ (by rw [healthCheckPool_isTeardown, h])]
    omega

/-- Once the teardown flag is set the loop performs nothing at all. -/
theorem runReconnectLoop_teardown (envs : Nat → HealthEnv) (n : Nat)
    (st : DboState) (h : st.isTeardown = true) :
    runReconnectLoop envs n st = (st, []) := by
  cases n <;> simp [runReconnectLoop, h]

/-- Claim C2: with no existing querier and a work unit returning nil, a
commit is attempted exactly once and no backend rollback is performed after
that commit (the deferred Rollback call is a no-op on the closed
transaction), whatever the commit outcome. -/
theorem C2_success_commit_once {Ctx Q : Type} (env : TxEnv Ctx Q) (ctx : Ctx)
    (fn : Q → Option GoErr) (opts : TxOptions)
    (hb : env.beginTx ctx opts = .ok ())
    (hf : fn env.txQuerier = none) :
    (runTransactionWithOpts env ctx fn opts []).2.countP Ev.isCommitAttempt
      = 1 ∧
    noEffRollbackAfterCommit
      (runTransactionWithOpts env ctx fn opts []).2 = true := by
  cases hc : env.commitErr ctx <;>
    simp [runTransactionWithOpts, hb, hf, hc, Tx.commit, Tx.rollback,
      noEffRollbackAfterCommit, Ev.isCommitAttempt, Ev.isEffRollback]

/-- Closed instance of C2 at a concrete environment. -/
theorem C2_success_commit_once_witness :
    (runTransactionWithOpts
        (⟨fun _ _ => .ok (), fun _ => none, 0, 1⟩ : TxEnv Nat Nat) 0
        (fun _ => none) ⟨.readWrite⟩ []).2.countP Ev.isCommitAttempt = 1 ∧
    noEffRollbackAfterCommit
      (runTransactionWithOpts
        (⟨fun _ _ => .ok (), fun _ => none, 0, 1⟩ : TxEnv Nat Nat) 0
        (fun _ => none) ⟨.readWrite⟩ []).2 = true :=
  C2_success_commit_once _ 0 (fun _ => none) ⟨.readWrite⟩ rfl rfl

/-- Claim C3: with no existing querier and a failing work unit, no commit is
attempted, the transaction is rolled back exactly once, and the work unit's
error is returned wrapped with the execute-phase message. -/
theorem C3_failure_rollback_once {Ctx Q : Type} (env : TxEnv Ctx Q)
    (ctx : Ctx) (fn : Q → Option GoErr) (opts : TxOptions) (e : GoErr)
    (hb : env.beginTx ctx opts = .ok ())
    (hf : fn env.txQuerier = some e) :
    (runTransactionWithOpts env ctx fn opts []).1
      = some (.wrap "failed to execute function" e) ∧
    (runTransactionWithOpts env ctx fn opts []).2.countP Ev.isCommitAttempt
      = 0 ∧
    (runTransactionWithOpts env ctx fn opts []).2.countP Ev.isEffRollback
      = 1 := by
  simp [runTransactionWithOpts, hb, hf, Tx.rollback,
    Ev.isCommitAttempt, Ev.isEffRollback]

/-- Closed instance of C3 at a concrete environment. -/
theorem C3_failure_rollback_once_witness :
    (runTransactionWithOpts
        (⟨fun _ _ => .ok (), fun _ => none, 0, 1⟩ : TxEnv Nat Nat) 0
        (fun _ => some (.base "boom")) ⟨.readOnly⟩ []).1
      = some (.wrap "failed to execute function" (.base "boom")) ∧
    (runTransactionWithOpts
        (⟨fun _ _ => .ok (), fun _ => none, 0, 1⟩ : TxEnv Nat Nat) 0
        (fun _ => some (.base "boom")) ⟨.readOnly⟩ []).2.countP
        Ev.isCommitAttempt = 0 ∧
    (runTransactionWithOpts
        (⟨fun _ _ => .ok (), fun _ => none, 0, 1⟩ : TxEnv Nat Nat) 0
        (fun _ => some (.base "boom")) ⟨.readOnly⟩ []).2.countP
        Ev.isEffRollback = 1 :=
  C3_failure_rollback_once _ 0 (fun _ => some (.base "boom")) ⟨.readOnly⟩
    (.base "boom") rfl rfl

/-- Claim C4: on the fresh-transaction path each of BeginTx, the work unit
and Commit is called at most once (BeginTx exactly once), and an error from
begin, execute or commit is returned wrapped with the message naming that
phase. -/
theorem C4_phase_wrapping_no_retry {Ctx Q : Type} (env : TxEnv Ctx Q)
    (ctx : Ctx) (fn : Q → Option GoErr) (opts : TxOptions) :
    (runTransactionWithOpts env ctx fn opts []).2.countP Ev.isBegin = 1 ∧
    (runTransactionWithOpts env ctx fn opts []).2.countP Ev.isExec ≤ 1 ∧
    (runTransactionWithOpts env ctx fn opts []).2.countP Ev.isCommitAttempt
      ≤ 1 ∧
    (∀ e, env.beginTx ctx opts = .error e →
      (runTransactionWithOpts env ctx fn opts []).1
        = some (.wrap "failed to begin transaction" e)) ∧
    (∀ e, env.beginTx ctx opts = .ok () → fn env.txQuerier = some e →
      (runTransactionWithOpts env ctx fn opts []).1
        = some (.wrap "failed to execute function" e)) ∧
    (∀ e, env.beginTx ctx opts = .ok () → fn env.txQuerier = none →
      env.commitErr ctx = some e →
      (runTransactionWithOpts env ctx fn opts []).1
        = some (.wrap "failed to commit transaction" e)) := by
  refine ⟨?_, ?_, ?_, ?_, ?_, ?_⟩
  · cases hb : env.beginTx ctx opts with
    | error e =>
      simp [runTransactionWithOpts, hb, Ev.isBegin]
    | ok u =>
      cases hf : fn env.txQuerier <;>
        cases hc : env.commitErr ctx <;>
          simp [runTransactionWithOpts, hb, hf, hc, Tx.commit, Tx.rollback,
            Ev.isBegin]
  · cases hb : env.beginTx ctx opts with
    | error e =>
      simp [runTransactionWithOpts, hb, Ev.isExec]
    | ok u =>
      cases hf : fn env.txQuerier <;>
        cases hc : env.commitErr ctx <;>
          simp [runTransactionWithOpts, hb, hf, hc, Tx.commit, Tx.rollback,
            Ev.isExec]
  · cases hb : env.beginTx ctx opts with
    | error e =>
      simp [runTransactionWithOpts, hb, Ev.isCommitAttempt]
    | ok u =>
      cases hf : fn env.txQuerier <;>
        cases hc : env.commitErr ctx <;>
          simp [runTransactionWithOpts, hb, hf, hc, Tx.commit, Tx.rollback,
            Ev.isCommitAttempt]
  · intro e hb
    simp [runTransactionWithOpts, hb]
  · intro e hb hf
    simp [runTransactionWithOpts, hb, hf]
  · intro e hb hf hc
    simp [runTransactionWithOpts, hb, hf, hc, Tx.commit, Tx.rollback]

/-- Closed instances of C4 at concrete environments covering the three
failing phases. -/
theorem C4_phase_wrapping_no_retry_witness :
    (runTransactionWithOpts
        (⟨fun _ _ => .error (.base "down"), fun _ => none, 0, 1⟩ :
          TxEnv Nat Nat) 0 (fun _ => none) ⟨.readWrite⟩ []).1
      = some (.wrap "failed to begin transaction" (.base "down")) ∧
    (runTransactionWithOpts
        (⟨fun _ _ => .ok (), fun _ => none, 0, 1⟩ : TxEnv Nat Nat) 0
        (fun _ => some (.base "bad")) ⟨.readWrite⟩ []).1
      = some (.wrap "failed to execute function" (.base "bad")) ∧
    (runTransactionWithOpts
        (⟨fun _ _ => .ok (), fun _ => some (.base "cfail"), 0, 1⟩ :
          TxEnv Nat Nat) 0 (fun _ => none) ⟨.readWrite⟩ []).1
      = some (.wrap "failed to commit transaction" (.base "cfail")) :=
  ⟨(C4_phase_wrapping_no_retry _ 0 (fun _ => none)
      ⟨.readWrite⟩).2.2.2.1 (.base "down") rfl,
   (C4_phase_wrapping_no_retry _ 0 (fun _ => some (.base "bad"))
      ⟨.readWrite⟩).2.2.2.2.1 (.base "bad") rfl rfl,
   (C4_phase_wrapping_no_retry _ 0 (fun _ => none)
      ⟨.readWrite⟩).2.2.2.2.2 (.base "cfail") rfl rfl rfl⟩

/-- Claim C5: on the fresh-transaction path, the first observable call is
BeginTx with the caller-supplied context, with read-only access mode for
WithReadTX and read-write access mode for WithTX. -/
theorem C5_access_mode_and_context {Ctx Q : Type} (env : TxEnv Ctx Q)
    (ctx : Ctx) (fn : Q → Option GoErr) :
    (WithReadTX env ctx fn []).2.head?
      = some (.beginTx ctx ⟨.readOnly⟩) ∧
    (WithTX env ctx fn []).2.head?
      = some (.beginTx ctx ⟨.readWrite⟩) := by
  constructor <;>
    · cases hb : env.beginTx ctx ⟨.readOnly⟩ <;>
        cases hb2 : env.beginTx ctx ⟨.readWrite⟩ <;>
          cases hf : fn env.txQuerier <;>
            cases hc : env.commitErr ctx <;>
              simp [WithReadTX, WithTX, runTransactionWithOpts, hb, hb2, hf,
                hc, Tx.commit, Tx.rollback]

/-- When connectAndMigratePool fails at any phase the dbo state is left
unchanged. -/
theorem connectAndMigratePool_fail (env : ConnectEnv) (st : DboState)
    (e : GoErr) (h : (connectAndMigratePool env st).1 = some e) :
    (connectAndMigratePool env st).2 = st := by
  cases hp : env.parseErr st.url <;>
    cases hc : env.createResult <;>
      cases hm : env.migrateErr <;>
        simp [connectAndMigratePool, hp, hc, hm] at h ⊢

/-- Claim C6: Disconnect with no argument or a false first argument sets the
teardown flag and closes the pool, and the reconnect loop then exits at its
next iteration without performing any further ping. -/
theorem C6_disconnect_stops_loop (st : DboState) (rest : List Bool)
    (envs : Nat → HealthEnv) (n : Nat) :
    (Disconnect st []).isTeardown = true ∧
    (Disconnect st []).pool.closed = true ∧
    runReconnectLoop envs n (Disconnect st []) = (Disconnect st [], []) ∧
    (Disconnect st (false :: rest)).isTeardown = true ∧
    (Disconnect st (false :: rest)).pool.closed = true ∧
    runReconnectLoop envs n (Disconnect st (false :: rest))
      = (Disconnect st (false :: rest), []) :=
  ⟨rfl, rfl, runReconnectLoop_teardown envs n _ rfl, rfl, rfl,
    runReconnectLoop_teardown envs n _ rfl⟩

/-- Claim C7: Disconnect true closes the pool but leaves the teardown flag
unchanged; if the flag was unset the loop keeps pinging, and a later
all-successful connectAndMigratePool installs a fresh open pool. -/
theorem C7_disconnect_suppressed (st : DboState) (rest : List Bool) :
    (Disconnect st (true :: rest)).isTeardown = st.isTeardown ∧
    (Disconnect st (true :: rest)).pool.closed = true ∧
    (st.isTeardown = false → ∀ (envs : Nat → HealthEnv) (n : Nat),
      (runReconnectLoop envs n (Disconnect st (true :: rest))).2.countP
        MEv.isPing = n) ∧
    (∀ (cenv : ConnectEnv) (m : Nat), cenv.parseErr st.url = none →
      cenv.createResult = .ok m → cenv.migrateErr = none →
      (connectAndMigratePool cenv (Disconnect st (true :: rest))).2.pool
        = ⟨m, false⟩) := by
  refine ⟨rfl, rfl, ?_, ?_⟩
  · intro h envs n
    exact runReconnectLoop_ping_count envs n _ (by simpa [Disconnect] using h)
  · intro cenv m hp hc hm
    simp [connectAndMigratePool, Disconnect, hp, hc, hm]

/-- Closed instance of C7 at a concrete state and environment. -/
theorem C7_disconnect_suppressed_witness :
    (runReconnectLoop
        (fun _ => ⟨none, fun _ => none, .ok 1, none⟩) 3
        (Disconnect ⟨"u", ⟨0, false⟩, false⟩ [true])).2.countP MEv.isPing
      = 3 ∧
    (connectAndMigratePool ⟨fun _ => none, .ok 7, none⟩
        (Disconnect ⟨"u", ⟨0, false⟩, false⟩ [true])).2.pool = ⟨7, false⟩ :=
  ⟨(C7_disconnect_suppressed ⟨"u", ⟨0, false⟩, false⟩ []).2.2.1 rfl _ 3,
   (C7_disconnect_suppressed ⟨"u", ⟨0, false⟩, false⟩ []).2.2.2
     ⟨fun _ => none, .ok 7, none⟩ 7 rfl rfl rfl⟩

/-- Claim C8: on a failed ping the manager makes exactly one reconnect
attempt; an all-successful reconnect replaces the pool field with the fresh
pool, a failed reconnect leaves the state unchanged, and afterwards the
loop keeps running (one ping per further iteration) as long as the
teardown flag is unset. -/
theorem C8_ping_failure_reconnect (env : HealthEnv) (st : DboState)
    (e : GoErr) (hping : env.pingErr = some e) :
    (healthCheckPool env st).2.countP MEv.isReconnect = 1 ∧
    (∀ m, env.connectEnv.parseErr st.url = none →
      env.connectEnv.createResult = .ok m →
      env.connectEnv.migrateErr = none →
      (healthCheckPool env st).1 = { st with pool := ⟨m, false⟩ }) ∧
    (∀ e2, (connectAndMigratePool env.connectEnv st).1 = some e2 →
      (healthCheckPool env st).1 = st) ∧
    (st.isTeardown = false → ∀ (envs : Nat → HealthEnv) (k : Nat),
      (runReconnectLoop envs k (healthCheckPool env st).1).2.countP
        MEv.isPing = k) := by
  refine ⟨?_, ?_, ?_, ?_⟩
  · simp [healthCheckPool, hping, MEv.isReconnect]
  · intro m hp hc hm
    simp [healthCheckPool, hping, connectAndMigratePool, hp, hc, hm]
  · intro e2 hfail
    simp only [healthCheckPool, hping]
    exact connectAndMigratePool_fail env.connectEnv st e2 hfail
  · intro h envs k
    exact runReconnectLoop_ping_count envs k _
      (by rw [healthCheckPool_isTeardown]; exact h)

/-- Closed instances of C8: a successful reconnect replacing the pool, a
failed reconnect leaving the state unchanged, and the loop still pinging
afterwards. -/
theorem C8_ping_failure_reconnect_witness :
    (healthCheckPool ⟨some (.base "pe"), fun _ => none, .ok 5, none⟩
        ⟨"u", ⟨0, false⟩, false⟩).1
      = ⟨"u", ⟨5, false⟩, false⟩ ∧
    (healthCheckPool
        ⟨some (.base "pe"), fun _ => none, .error (.base "ce"), none⟩
        ⟨"u", ⟨0, false⟩, false⟩).1
      = ⟨"u", ⟨0, false⟩, false⟩ ∧
    (runReconnectLoop
        (fun _ =>
          ⟨some (.base "pe"), fun _ => none, .error (.base "ce"), none⟩) 4
        (healthCheckPool
          ⟨some (.base "pe"), fun _ => none, .error (.base "ce"), none⟩
          ⟨"u", ⟨0, false⟩, false⟩).1).2.countP MEv.isPing = 4 :=
  ⟨(C8_ping_failure_reconnect _ ⟨"u", ⟨0, false⟩, false⟩ (.base "pe")
      rfl).2.1 5 rfl rfl rfl,
   (C8_ping_failure_reconnect _ ⟨"u", ⟨0, false⟩, false⟩ (.base "pe")
      rfl).2.2.1 (.wrap "failed to create connection pool" (.base "ce")) rfl,
   (C8_ping_failure_reconnect _ ⟨"u", ⟨0, false⟩, false⟩ (.base "pe")
      rfl).2.2.2 rfl _ 4⟩

/-- One operation of the Database interface, acting on the dbo state.
WithTX and WithReadTX (runTransactionWithOpts) only read the pool field and
assign no field of dbo, so they leave the manager state unchanged; their
transaction-side behaviour is modelled separately above. -/
inductive Op where
  | disconnect (args : List Bool)
  | healthIter (env : HealthEnv)
  | withTX (env : TxEnv Nat Nat) (ctx : Nat) (fn : Nat → Option GoErr)
      (existingQ : List Nat)
  | withReadTX (env : TxEnv Nat Nat) (ctx : Nat) (fn : Nat → Option GoErr)
      (existingQ : List Nat)

/-- Effect of one Database operation on the dbo state. -/
def applyOp (st : DboState) : Op → DboState
  | .disconnect args => Disconnect st args
  | .healthIter env => (healthCheckPool env st).1
  | .withTX _ _ _ _ => st
  | .withReadTX _ _ _ _ => st

/-- No single Database operation resets the teardown flag. -/
theorem applyOp_isTeardown_mono (st : DboState) (op : Op)
    (h : st.isTeardown = true) : (applyOp st op).isTeardown = true := by
  cases op with
  | disconnect args =>
    cases args with
    | nil => rfl
    | cons b bs => cases b <;> simp [applyOp, Disconnect, h]
  | healthIter env =>
    rw [applyOp, healthCheckPool_isTeardown]
    exact h
  | withTX env ctx fn ex => exact h
  | withReadTX env ctx fn ex => exact h

/-- Claim C9: across any sequence of Database operations, once the teardown
flag is true it stays true. -/
theorem C9_teardown_monotone (ops : List Op) (st : DboState)
    (h : st.isTeardown = true) :
    (ops.foldl applyOp st).isTeardown = true := by
  induction ops generalizing st with
  | nil => exact h
  | cons op ops ih =>
    exact ih _ (applyOp_isTeardown_mono st op h)

/-- Closed instance of C9 on a concrete operation sequence. -/
theorem C9_teardown_monotone_witness :
    (([Op.disconnect [true],
        Op.healthIter ⟨none, fun _ => none, .ok 1, none⟩,
        Op.withTX ⟨fun _ _ => .ok (), fun _ => none, 0, 1⟩ 0
          (fun _ => none) [],
        Op.disconnect []] : List Op).foldl applyOp
      ⟨"u", ⟨0, false⟩, true⟩).isTeardown = true :=
  C9_teardown_monotone _ ⟨"u", ⟨0, false⟩, true⟩ rfl

/-- Wrapping a Go error never yields the same error value back. -/
theorem GoErr_wrap_ne (m : String) (e : GoErr) : GoErr.wrap m e ≠ e := by
  induction e generalizing m with
  | base s => simp
  | wrap m2 e2 ih =>
    intro h
    injection h with h1 h2
    exact ih m2 h2

/-- Claim C10: with an existing querier supplied, WithTX and WithReadTX
coincide (the access mode is ignored), the work unit's result is returned
verbatim and no begin, commit or rollback call occurs; on the fresh path a
failing work unit's error instead comes back wrapped with the
execute-phase message, hence not verbatim. -/
theorem C10_existing_path_equivalence {Ctx Q : Type} (env : TxEnv Ctx Q)
    (ctx : Ctx) (fn : Q → Option GoErr) (q : Q) (rest : List Q) :
    WithTX env ctx fn (q :: rest) = WithReadTX env ctx fn (q :: rest) ∧
    (WithTX env ctx fn (q :: rest)).1 = fn q ∧
    (WithTX env ctx fn (q :: rest)).2.countP Ev.isBegin = 0 ∧
    (WithTX env ctx fn (q :: rest)).2.countP Ev.isCommitCall = 0 ∧
    (WithTX env ctx fn (q :: rest)).2.countP Ev.isRollbackCall = 0 ∧
    (∀ e, env.beginTx ctx ⟨.readWrite⟩ = .ok () →
      fn env.txQuerier = some e →
      (WithTX env ctx fn []).1
          = some (.wrap "failed to execute function" e) ∧
        (WithTX env ctx fn []).1 ≠ some e) := by
  refine ⟨rfl, rfl, ?_, ?_, ?_, ?_⟩
  · simp [WithTX, runTransactionWithOpts, Ev.isBegin]
  · simp [WithTX, runTransactionWithOpts, Ev.isCommitCall]
  · simp [WithTX, runTransactionWithOpts, Ev.isRollbackCall]
  · intro e hb hf
    have h1 : (WithTX env ctx fn []).1
        = some (.wrap "failed to execute function" e) := by
      simp [WithTX, runTransactionWithOpts, hb, hf]
    refine ⟨h1, ?_⟩
    rw [h1]
    intro hco
    injection hco with h2
    exact GoErr_wrap_ne _ e h2

/-- Closed instance of C10 at a concrete environment. -/
theorem C10_existing_path_equivalence_witness :
    WithTX (⟨fun _ _ => .ok (), fun _ => none, 0, 1⟩ : TxEnv Nat Nat) 0
        (fun _ => some (.base "x")) [3]
      = WithReadTX (⟨fun _ _ => .ok (), fun _ => none, 0, 1⟩ : TxEnv Nat Nat)
        0 (fun _ => some (.base "x")) [3] ∧
    (WithTX (⟨fun _ _ => .ok (), fun _ => none, 0, 1⟩ : TxEnv Nat Nat) 0
        (fun _ => some (.base "x")) []).1
      = some (.wrap "failed to execute function" (.base "x")) ∧
    (WithTX (⟨fun _ _ => .ok (), fun _ => none, 0, 1⟩ : TxEnv Nat Nat) 0
        (fun _ => some (.base "x")) []).1 ≠ some (.base "x") :=
  ⟨(C10_existing_path_equivalence _ 0 (fun _ => some (.base "x")) 3 []).1,
   ((C10_existing_path_equivalence _ 0 (fun _ => some (.base "x")) 3
      []).2.2.2.2.2 (.base "x") rfl rfl).1,
   ((C10_existing_path_equivalence _ 0 (fun _ => some (.base "x")) 3
      []).2.2.2.2.2 (.base "x") rfl rfl).2⟩

end DB
